import Mathlib

/-!
Verification of the MRTK-TRACKER result-scraping core.

The development shallowly embeds the Python sources:
  * `utils.py`                — `parse_hhmmss_to_seconds`
  * `scraper.py`              — `MyResultScraper.parse_runner`, `fetch_runner`,
                                 `get_many_async`, `get_many`
  * `scraper_runner.py`       — the `__main__` batch entry point

HTML parsing (BeautifulSoup) is embedded at the selector level: a `Doc`
records the text results of the fixed selectors `parse_runner` queries
(`div.table-row.ant-row` rows, their `div.ant-col.ant-col-6` cell texts,
the player/event card title and description texts).  All text fields hold
the `get_text(strip=True)` results.  Python string primitives used by the
sources (`split` on a single-character separator, `strip`, `replace`,
substring membership, `isdigit`, `int(...)`) are modelled as structural
recursions over `List Char`; Unicode niceties Python would additionally
accept (non-ASCII decimal digits, underscore digit grouping in `int`) are
not modelled, as no claim depends on them.
-/

/-- Python `str.strip` whitespace test (ASCII whitespace). -/
def pyWs (c : Char) : Bool :=
  c = ' ' || c = '\t' || c = '\n' || c = '\r' || c = '\x0b' || c = '\x0c'

/-- Drop leading whitespace characters. -/
def dropLeadingWs : List Char → List Char
  | [] => []
  | c :: cs => if pyWs c then dropLeadingWs cs else c :: cs

/-- Python `str.strip()`: drop leading and trailing whitespace. -/
def pyStrip (cs : List Char) : List Char :=
  ((dropLeadingWs ((dropLeadingWs cs).reverse)).reverse)

/-- Python `str.split(sep)` for a one-character separator: splits at every
occurrence, and yields `[""]` on the empty string. -/
def splitOnChar (sep : Char) : List Char → List (List Char)
  | [] => [[]]
  | c :: cs =>
    let rest := splitOnChar sep cs
    if c = sep then [] :: rest
    else
      match rest with
      | r :: rs => (c :: r) :: rs
      | [] => [[c]]

/-- Python `str.replace(x, "")` for a one-character pattern. -/
def removeAllChar (x : Char) : List Char → List Char
  | [] => []
  | c :: cs => if c = x then removeAllChar x cs else c :: removeAllChar x cs

/-- `listIsPrefixOf pat s` decides whether `pat` is a prefix of `s`. -/
def listIsPrefixOf : List Char → List Char → Bool
  | [], _ => true
  | _ :: _, [] => false
  | a :: as, b :: bs => a = b && listIsPrefixOf as bs

/-- Python `pat in s` substring membership. -/
def isSubstring (pat : List Char) : List Char → Bool
  | [] => pat.isEmpty
  | c :: rest => listIsPrefixOf pat (c :: rest) || isSubstring pat rest

/-- Numeric value of a decimal digit character. -/
def digitVal (c : Char) : Nat := c.toNat - '0'.toNat

/-- `int` of a nonempty all-digit character run. -/
def toNatDigits (cs : List Char) : Nat := cs.foldl (fun a c => a * 10 + digitVal c) 0

/-!  ## `utils.py` — `parse_hhmmss_to_seconds` (lines 5-28)

The primary pattern is `re.fullmatch(r"(?:(\d{1,2}):)?([0-5]?\d):([0-5]?\d)", t)`.
Since `:` is not a digit, a full match decomposes uniquely at the colons, so the
regex is equivalent to: the colon-separated segments of `t` are exactly
`[m, s]` or `[h, m, s]` with `h` matching `\d{1,2}` and `m`, `s` matching
`[0-5]?\d` — which is how `regexFullmatchHMS` decides it.  The fallback is
`re.findall(r"\d+", t)`, i.e. the maximal digit runs of `t`. -/

/-- The regex group `[0-5]?\d`: one digit, or a `0`-`5` digit followed by a digit. -/
def msGroupOk (cs : List Char) : Bool :=
  match cs with
  | [c] => c.isDigit
  | [c1, c2] => ('0' ≤ c1 && c1 ≤ '5') && c2.isDigit
  | _ => false

/-- The regex group `\d{1,2}`: one or two digits. -/
def hGroupOk (cs : List Char) : Bool :=
  match cs with
  | [c] => c.isDigit
  | [c1, c2] => c1.isDigit && c2.isDigit
  | _ => false

/-- Full match of `(?:(\d{1,2}):)?([0-5]?\d):([0-5]?\d)`, returning the
`(hours, minutes, seconds)` groups (`group(1) or 0` when absent). -/
def regexFullmatchHMS (cs : List Char) : Option (Nat × Nat × Nat) :=
  match splitOnChar ':' cs with
  | [m, s] => if msGroupOk m && msGroupOk s then some (0, toNatDigits m, toNatDigits s) else none
  | [h, m, s] =>
    if hGroupOk h && msGroupOk m && msGroupOk s then
      some (toNatDigits h, toNatDigits m, toNatDigits s)
    else none
  | _ => none

/-- Maximal runs of consecutive digit characters (`re.findall(r"\d+", t)`). -/
def digitRuns : List Char → List (List Char)
  | [] => []
  | c :: cs =>
    let rest := digitRuns cs
    if c.isDigit then
      match cs with
      | c2 :: _ =>
        if c2.isDigit then
          match rest with
          | r :: rs => (c :: r) :: rs
          | [] => [[c]]
        else [c] :: rest
      | [] => [[c]]
    else rest

/-- `utils.parse_hhmmss_to_seconds` (utils.py lines 5-28): empty input gives
`None`; otherwise the stripped text is matched against the primary pattern,
and failing that, its digit runs are interpreted as `h m s` (three runs) or
`m s` (two runs); anything else gives `None`. -/
def parse_hhmmss_to_seconds (text : String) : Option Nat :=
  if text = "" then none
  else
    let t := pyStrip text.data
    match regexFullmatchHMS t with
    | some (h, m, s) => some (h * 3600 + m * 60 + s)
    | none =>
      match (digitRuns t).map toNatDigits with
      | [h, m, s] => some (h * 3600 + m * 60 + s)
      | [m, s] => some (m * 60 + s)
      | _ => none


/-!  ## `scraper.py` — `MyResultScraper.parse_runner` (lines 32-81)

A `Doc` is the selector-level view of one rendered page:

  * `rows`      — one entry per `div.table-row.ant-row` element, holding the
                  `get_text(strip=True)` of its `div.ant-col.ant-col-6` cells
                  (line 34, 37);
  * `eventTitle`— the text of
                  `div.ant-card:not(.card-player) .ant-card-meta-title`, when
                  that selector matches (line 50);
  * `player`    — the `div.card-player.ant-card` / `div.card-player` card
                  with its `.ant-card-meta-title` / `.ant-card-meta-description`
                  texts (lines 46, 54-55);
  * `globalTitle`/`globalDesc` — the document-wide
                  `div.ant-card-meta-title` / `div.ant-card-meta-description`
                  texts used when no player card exists (lines 57-58);
  * `raiseAt`   — fault injection for the `try` block of lines 49-71: `some k`
                  means an exception is raised at the start of metadata step
                  `k`, so only steps `j < k` run (the `except` on line 72
                  catches it).  The steps are
                  1 = `event_name` (50-52), 2 = tag selection + `name` (53-60),
                  3 = `gender` (61-65), 4 = `bib_no` (66-67),
                  5 = `name` fallback from the description (68-71).
-/

/-- The player card (`div.card-player`): its title and description texts. -/
structure PlayerCard where
  title : Option String
  desc : Option String
deriving DecidableEq

/-- Selector-level view of a rendered results page (see module comment). -/
structure Doc where
  rows : List (List String)
  eventTitle : Option String
  player : Option PlayerCard
  globalTitle : Option String
  globalDesc : Option String
  raiseAt : Option Nat
deriving DecidableEq

/-- One timing-table row (`sections` element), scraper.py lines 39-44.
`sec_label` models the `"section"` key. -/
structure CheckpointSection where
  sec_label : String
  pass_time : String
  split_time : String
  total_time : String
deriving DecidableEq

/-- Output of `parse_runner` (the dict of scraper.py lines 75-81, before
`fetch_runner` stamps `runner_id`). -/
structure ParsedRunner where
  name : String
  gender : String
  bib_no : String
  event_name : String
  sections : List CheckpointSection
deriving DecidableEq

/-- Positional cell extraction of scraper.py lines 40-43: missing trailing
cells default to the empty string. -/
def rowToSection (cols : List String) : CheckpointSection :=
  { sec_label := cols.getD 0 ""
    pass_time := cols.getD 1 ""
    split_time := cols.getD 2 ""
    total_time := cols.getD 3 "" }

/-- The `sections` loop of scraper.py lines 35-44: rows yielding no cells
(`if cols:`) are skipped; the rest map positionally. -/
def sectionsOf (rows : List (List String)) : List CheckpointSection :=
  (rows.filter (fun cols => !cols.isEmpty)).map rowToSection

/-- Index of the first metadata step that does not run: `k` when an exception
is injected at step `k`, otherwise 6 (all five steps run). -/
def stopOf (d : Doc) : Nat := d.raiseAt.getD 6

/-- Step 1 (scraper.py lines 50-52): `event_name` from the non-player card
title. -/
def metaEventName (d : Doc) : String :=
  if 1 < stopOf d then d.eventTitle.getD "" else ""

/-- Step 2, selection half (scraper.py lines 53-58): the `(name_tag, desc_tag)`
pair, scoped to the player card when one exists, otherwise document-wide. -/
def scopeTags (d : Doc) : Option String × Option String :=
  if 2 < stopOf d then
    match d.player with
    | some pc => (pc.title, pc.desc)
    | none => (d.globalTitle, d.globalDesc)
  else (none, none)

/-- Step 2, assignment half (scraper.py lines 59-60): `name` from the title
tag when present, else the initial `""` (line 47). -/
def metaName0 (d : Doc) : String := (scopeTags d).1.getD ""

/-- `[p.strip() for p in desc_tag.get_text(strip=True).split("|")]`
(scraper.py line 62). -/
def descParts (s : String) : List String :=
  (splitOnChar '|' s.data).map (fun cs => String.mk (pyStrip cs))

/-- The gender tokens of scraper.py line 64. -/
def genderTokens : List String := ["남", "여", "남자", "여자", "M", "F"]

/-- `any(k in parts[0] for k in ("남", "여", "남자", "여자", "M", "F"))`
(scraper.py line 64). -/
def hasGenderTok (s : String) : Bool :=
  genderTokens.any (fun k => isSubstring k.data s.data)

/-- Step 3 (scraper.py lines 61-65): `gender` is the first pipe-delimited,
stripped description segment when it contains a gender token. -/
def metaGender (d : Doc) : String :=
  if 3 < stopOf d then
    match (scopeTags d).2 with
    | some dtext =>
      let parts := descParts dtext
      if parts.isEmpty then ""
      else if hasGenderTok (parts.headD "") then parts.headD "" else ""
    | none => ""
  else ""

/-- Step 4 (scraper.py lines 66-67): `bib_no = parts[1].replace("#", "").strip()`
when the description has at least two segments — note `replace` removes every
`"#"`, not only a leading one. -/
def metaBib (d : Doc) : String :=
  if 4 < stopOf d then
    match (scopeTags d).2 with
    | some dtext =>
      let parts := descParts dtext
      if parts.isEmpty then ""
      else if 2 ≤ parts.length then
        String.mk (pyStrip (removeAllChar '#' (parts.getD 1 "").data))
      else ""
    | none => ""
  else ""

/-- Step 5 (scraper.py lines 68-71): when no name was extracted, fall back to
the first pipe-delimited segment of the description. -/
def metaName (d : Doc) : String :=
  if 5 < stopOf d then
    if metaName0 d = "" then
      match (scopeTags d).2 with
      | some dtext =>
        let chunks := descParts dtext
        if chunks.isEmpty then metaName0 d else chunks.headD ""
      | none => metaName0 d
    else metaName0 d
  else metaName0 d

/-- `MyResultScraper.parse_runner` (scraper.py lines 32-81).  `sections` is
computed before the guarded metadata block, and the returned `name` is
`name or "이름없음"` (line 76). -/
def parse_runner (d : Doc) : ParsedRunner :=
  { name := if metaName d = "" then "이름없음" else metaName d
    gender := metaGender d
    bib_no := metaBib d
    event_name := metaEventName d
    sections := sectionsOf d.rows }


/-!  ## `scraper.py` — `fetch_runner` (lines 86-107)

A `NavOutcome` summarises how the browser interaction of one item resolves:

  * `ok selTimedOut doc` — `page.goto` succeeded; `selTimedOut` records
    whether the `wait_for_selector` on line 91 raised `PlaywrightTimeoutError`
    (caught on lines 92-93: the code then merely sleeps 0.8 s and proceeds),
    and `doc` is the selector-level view of the `page.content()` HTML;
  * `timeout` — a `PlaywrightTimeoutError` reached the outer handler
    (line 99), i.e. navigation (or content extraction) timed out;
  * `targetClosed msg` — a `TargetClosedError` reached line 102;
  * `err msg` — any other exception, with `str(e) = msg`, reached line 105.
-/

/-- Resolution of the browser interaction for one item (see above). -/
inductive NavOutcome
  | ok (selTimedOut : Bool) (doc : Doc)
  | timeout
  | targetClosed (msg : String)
  | err (msg : String)
deriving DecidableEq

/-- `runner_id` as it appears in an output record: either the integer stamped
by `fetch_runner` (line 97) or the literal string `"N/A"` used by the critical
gather-failure branch (line 180). -/
inductive RunnerId
  | rid (n : Int)
  | na
deriving DecidableEq

/-- One output record (a Python dict).  `parsed` holds the
`name`/`gender`/`bib_no`/`event_name`/`sections` keys, present exactly when
the fetch succeeded; `error` holds the `"error"` key. -/
structure RunnerRecord where
  runner_id : RunnerId
  parsed : Option ParsedRunner
  error : Option String
deriving DecidableEq

/-- `MyResultScraper.fetch_runner` (scraper.py lines 86-107): every outcome is
converted to a record — nothing propagates — and on lines 96-98 the parsed
dict gets `runner_id` stamped in. -/
def fetch_runner (runner_id : Int) (nav : NavOutcome) : RunnerRecord :=
  match nav with
  | .ok _ doc => { runner_id := .rid runner_id, parsed := some (parse_runner doc), error := none }
  | .timeout => { runner_id := .rid runner_id, parsed := none, error := some "timeout" }
  | .targetClosed _ => { runner_id := .rid runner_id, parsed := none, error := some "TargetClosedError" }
  | .err m => { runner_id := .rid runner_id, parsed := none, error := some m }

/-!  ## `scraper.py` — `get_many_async` (lines 112-188) and `get_many` (193-198)

Each queued `runner_id` is handled by a `worker` coroutine (lines 144-166)
whose body runs `fetch_runner` on a fresh page.  `asyncio.gather(*tasks,
return_exceptions=True)` (line 170) yields, per item, either the worker's
returned record or the exception that escaped it (e.g. from
`context.new_page()` or `page.close()`, or a cancellation); the loop on
lines 176-182 converts an escaped exception into
`{"runner_id": "N/A", "error": "Critical gather failure: <class name>"}`. -/

/-- How one worker task resolves under `gather(..., return_exceptions=True)`:
its returned record's inputs, or the class name of an exception that escaped
it. -/
inductive WorkerOutcome
  | normal (nav : NavOutcome)
  | raised (excName : String)
deriving DecidableEq

/-- `true` on the `raised` constructor. -/
def WorkerOutcome.isRaised : WorkerOutcome → Bool
  | .normal _ => false
  | .raised _ => true

/-- The result-assembly of scraper.py lines 169-182: one entry per queued
`runner_id`, in task order; escaped exceptions become the synthetic `"N/A"`
record of line 180. -/
def gather_final (items : List (Int × WorkerOutcome)) : List RunnerRecord :=
  items.map (fun p =>
    match p.2 with
    | .normal nav => fetch_runner p.1 nav
    | .raised n =>
      { runner_id := .na, parsed := none, error := some ("Critical gather failure: " ++ n) })

/-- Resolution of one awaited infrastructure step (`browser.new_context()`,
`browser.close()`): normal completion or an escaping exception. -/
inductive StepOutcome
  | ok
  | raise (msg : String)
deriving DecidableEq

/-- The resolutions of every awaited step of one `get_many_async` run:
whether `p.chromium.launch` succeeds (line 121), how `browser.new_context()`
resolves (line 141), the per-item worker outcomes, and how `browser.close()`
resolves (line 172). -/
structure AsyncEnv where
  launchOk : Bool
  launchMsg : String
  newContext : StepOutcome
  items : List (Int × WorkerOutcome)
  closeBrowser : StepOutcome
deriving DecidableEq

deriving instance DecidableEq for Except

/-- Observable result of one `get_many_async` run: the value returned (or the
exception escaping it), whether a browser was launched, and whether that
browser had been closed by the time control left the function. -/
structure AsyncRun where
  result : Except String (List RunnerRecord)
  browserLaunched : Bool
  browserClosed : Bool
deriving DecidableEq

/-- `MyResultScraper.get_many_async` (scraper.py lines 112-188).  The whole
body sits inside `async with async_playwright() as p:`; exiting that context
manager — normally or exceptionally — stops the Playwright driver, which
closes every browser it launched.  Hence: if `launch` fails, no browser
exists; if a later step raises, the exception propagates but the context
manager's teardown closes the browser; on the normal path line 172 closes it
explicitly before the function returns `final_results`.  `gather` itself
never raises (`return_exceptions=True`). -/
def get_many_async_run (env : AsyncEnv) : AsyncRun :=
  if !env.launchOk then
    { result := .error env.launchMsg, browserLaunched := false, browserClosed := false }
  else
    match env.newContext with
    | .raise m => { result := .error m, browserLaunched := true, browserClosed := true }
    | .ok =>
      match env.closeBrowser with
      | .raise m => { result := .error m, browserLaunched := true, browserClosed := true }
      | .ok =>
        { result := .ok (gather_final env.items), browserLaunched := true, browserClosed := true }

/-- `MyResultScraper.get_many` (scraper.py lines 193-198): any exception from
the async run is caught and the empty list is returned. -/
def get_many (env : AsyncEnv) : List RunnerRecord :=
  match (get_many_async_run env).result with
  | .ok l => l
  | .error _ => []

/-!  ## `scraper_runner.py` — the batch entry point (lines 6-32)

The process parses `argv`, builds the digit-filtered id list, then calls
`scraper.get_many(race_id, runner_ids, limit=4)` (line 20).  `get_many`
(scraper.py line 193) declares only `(self, race_id, runner_ids)`, so Python
raises `TypeError: get_many() got an unexpected keyword argument 'limit'` at
the call site, before the scraper body runs.  `runner_call_binds` makes that
binding check explicit: the keyword names used at the call site must all be
parameter names of the callee.  Every exception lands in the handler on
lines 25-32, which prints a JSON `{error, trace}` object and exits 1. -/

/-- The (non-self) parameter names of `MyResultScraper.get_many`
(scraper.py line 193). -/
def get_many_param_names : List String := ["race_id", "runner_ids"]

/-- The keyword-argument names used at the scraper_runner.py line 20 call. -/
def runner_call_kwarg_names : List String := ["limit"]

/-- Whether the line 20 call binds against `get_many`'s signature. -/
def runner_call_binds : Bool :=
  runner_call_kwarg_names.all (fun k => get_many_param_names.contains k)

/-- Python `str.isdigit()` on ASCII: nonempty and all digits. -/
def pyIsDigitStr (cs : List Char) : Bool := !cs.isEmpty && cs.all Char.isDigit

/-- Python `int(s)` on a string: strips whitespace, then an optional sign and
a nonempty digit run (underscore grouping not modelled); `none` models the
`ValueError`. -/
def pyIntOfStr? (cs : List Char) : Option Int :=
  match pyStrip cs with
  | '+' :: ds => if pyIsDigitStr ds then some (Int.ofNat (toNatDigits ds)) else none
  | '-' :: ds => if pyIsDigitStr ds then some (-(Int.ofNat (toNatDigits ds))) else none
  | ds => if pyIsDigitStr ds then some (Int.ofNat (toNatDigits ds)) else none

/-- scraper_runner.py line 13:
`[int(x) for x in sys.argv[2].split(",") if x.strip().isdigit()]`. -/
def parseRunnerIds (arg : String) : List Int :=
  (splitOnChar ',' arg.data).filterMap (fun tok =>
    if pyIsDigitStr (pyStrip tok) then some (Int.ofNat (toNatDigits (pyStrip tok))) else none)

/-- The single JSON value the process writes to standard output: the result
array (line 23) or the `{error, trace}` object (lines 26-31). -/
inductive JsonOut
  | arr (records : List RunnerRecord)
  | errObj (msg : String)
deriving DecidableEq

/-- Observable outcome of one entry-point invocation: what was printed, the
process exit status, and how many per-item fetches were attempted. -/
structure RunResult where
  out : JsonOut
  exitCode : Nat
  fetchAttempts : Nat
deriving DecidableEq

/-- The `__main__` block of scraper_runner.py (lines 6-32).  `batch` abstracts
a successful `get_many` call — it is only reached if the line 20 call binds,
which it does not (see `runner_call_binds`). -/
def scraper_runner_main (argv : List String) (batch : Int → List Int → List RunnerRecord) :
    RunResult :=
  if argv.length < 3 then ⟨.errObj "인자 부족: race_id, runner_ids 필요", 1, 0⟩
  else
    match pyIntOfStr? (argv.getD 1 "").data with
    | none => ⟨.errObj "invalid literal for int() with base 10", 1, 0⟩
    | some race_id =>
      let runner_ids := parseRunnerIds (argv.getD 2 "")
      if runner_ids.isEmpty then ⟨.errObj "runner_ids가 비어 있습니다.", 1, 0⟩
      else if runner_call_binds then ⟨.arr (batch race_id runner_ids), 0, runner_ids.length⟩
      else ⟨.errObj "get_many() got an unexpected keyword argument: limit", 1, 0⟩


/-!  ## Concrete inputs used by the claim theorems below -/

/-- A well-formed entry-point invocation: `race_id=132`, one runner id. -/
def c1_argv : List String := ["scraper_runner.py", "132", "1051"]

/-- A one-item batch whose worker task raised `TargetClosedError` past
`fetch_runner` (so `gather` captured the exception itself). -/
def c2_items : List (Int × WorkerOutcome) := [(1051, WorkerOutcome.raised "TargetClosedError")]

/-- A two-item batch in which no worker raised: one per-item timeout, one
generic per-item failure. -/
def c2_ok_items : List (Int × WorkerOutcome) :=
  [(1051, WorkerOutcome.normal NavOutcome.timeout),
   (1052, WorkerOutcome.normal (NavOutcome.err "net::ERR_FAILED"))]

/-- A page whose timing table rendered (one row) although the selector wait
had timed out. -/
def c3_doc : Doc :=
  { rows := [["5K", "09:25", "00:25", "00:25"]], eventTitle := none, player := none,
    globalTitle := none, globalDesc := none, raiseAt := none }

/-- A page with one 2-cell row and one empty (layout-artifact) row between
full rows. -/
def c4_doc : Doc :=
  { rows := [["Start", "09:00"], [], ["5K", "09:25", "00:25", "00:25"]],
    eventTitle := none, player := none, globalTitle := none, globalDesc := none,
    raiseAt := none }

/-- An invocation with a non-integer race identifier. -/
def c5_argv : List String := ["scraper_runner.py", "abc", "1051"]

/-- A stand-in for a successful `get_many` call (never reached). -/
def c5_batch : Int → List Int → List RunnerRecord := fun _ _ => []

/-- A fully-populated page on which metadata extraction raises at step 2
(after `event_name` was already assigned). -/
def c7_doc : Doc :=
  { rows := [["5K", "09:25", "00:25", "00:25"]], eventTitle := some "2025 춘천마라톤",
    player := some ⟨some "홍길동", some "남자 | #1051"⟩, globalTitle := none,
    globalDesc := none, raiseAt := some 2 }

/-- A player card whose description's second segment contains an interior
`"#"`. -/
def c8_doc : Doc :=
  { rows := [], eventTitle := none,
    player := some ⟨some "홍길동", some "남자 | #10#51"⟩, globalTitle := none,
    globalDesc := none, raiseAt := none }

/-- Modelled from the spec: "the second segment (with any leading `#`
stripped)" — strips one leading `#` only.  Used solely to compare the
spec's wording with the code's `replace("#", "")`. -/
def specLeadingHashStrip (s : String) : String :=
  match s.data with
  | '#' :: rest => String.mk rest
  | _ => s

/-- The end-to-end scenario-A page: three timing rows and the
`홍길동` / `남자 | #1051` player card. -/
def c8_docA : Doc :=
  { rows := [["Start", "08:00", "", "00:00"], ["5K", "08:25", "00:25", "00:25"],
             ["Finish", "11:00", "02:35", "03:00"]],
    eventTitle := some "2025 춘천마라톤",
    player := some ⟨some "홍길동", some "남자 | #1051"⟩, globalTitle := none,
    globalDesc := none, raiseAt := none }

/-- A run in which the browser launches and one item times out. -/
def c9_env : AsyncEnv :=
  { launchOk := true, launchMsg := "", newContext := StepOutcome.ok,
    items := [(1051, WorkerOutcome.normal NavOutcome.timeout)], closeBrowser := StepOutcome.ok }

/-- A run in which the browser launch itself fails although one runner id
was requested. -/
def c10_env : AsyncEnv :=
  { launchOk := false, launchMsg := "browser launch failed", newContext := StepOutcome.ok,
    items := [(1051, WorkerOutcome.normal NavOutcome.timeout)], closeBrowser := StepOutcome.ok }

/-!  ## Helper lemmas -/

/-- Every `fetch_runner` path stamps the requested `runner_id`
(scraper.py lines 97, 101, 104, 107). -/
theorem fetch_runner_rid (i : Int) (nav : NavOutcome) :
    (fetch_runner i nav).runner_id = RunnerId.rid i := by
  cases nav <;> rfl

/-- Python's `split` never yields an empty list of parts. -/
theorem splitOnChar_ne_nil (sep : Char) (cs : List Char) : splitOnChar sep cs ≠ [] := by
  cases cs with
  | nil => simp [splitOnChar]
  | cons c cs' =>
    unfold splitOnChar
    by_cases h : c = sep
    · simp [h]
    · rw [if_neg h]
      cases hsp : splitOnChar sep cs' with
      | nil => simp
      | cons r rs => simp

/-- A description always splits into at least one part. -/
theorem descParts_not_empty (s : String) : (descParts s).isEmpty = false := by
  unfold descParts
  cases e : splitOnChar '|' s.data with
  | nil => exact absurd e (splitOnChar_ne_nil _ _)
  | cons r rs => rfl

/-- Unfolding `gather_final` over a cons cell. -/
theorem gather_final_cons (p : Int × WorkerOutcome) (t : List (Int × WorkerOutcome)) :
    gather_final (p :: t) =
      (match p.2 with
       | .normal nav => fetch_runner p.1 nav
       | .raised n =>
         { runner_id := RunnerId.na, parsed := none,
           error := some ("Critical gather failure: " ++ n) }) :: gather_final t := by
  simp [gather_final]

/-- The `runner_id` column of a batch with no raised worker is the requested
id list. -/
theorem gather_final_map_rid (l : List (Int × WorkerOutcome))
    (h : ∀ p ∈ l, p.2.isRaised = false) :
    (gather_final l).map RunnerRecord.runner_id = l.map (fun p => RunnerId.rid p.1) := by
  induction l with
  | nil => rfl
  | cons p t ih =>
    have hp := h p (List.mem_cons_self _ _)
    have ht : ∀ q ∈ t, q.2.isRaised = false := fun q hq => h q (List.mem_cons_of_mem _ hq)
    rcases p with ⟨pid, po⟩
    cases po with
    | normal nav =>
      rw [gather_final_cons]
      dsimp only
      rw [List.map_cons, List.map_cons, fetch_runner_rid, ih ht]
    | raised n => simp [WorkerOutcome.isRaised] at hp

/-!  ## Claim theorems -/

/-- C1 (code_bug): a well-formed Batch Entry Point invocation (integer race
id, digit-only participant list) is claimed to write one JSON array and exit
with status 0.  The code instead raises
`TypeError: get_many() got an unexpected keyword argument 'limit'` at
scraper_runner.py line 20 — `get_many` (scraper.py line 193) has no `limit`
parameter — so for every possible scraper behaviour the process prints the
`{error, trace}` object and exits 1, with zero fetch attempts. -/
theorem c1_entry_point_always_fails (batch : Int → List Int → List RunnerRecord) :
    (scraper_runner_main c1_argv batch).out =
      JsonOut.errObj "get_many() got an unexpected keyword argument: limit" ∧
    (scraper_runner_main c1_argv batch).exitCode = 1 ∧
    (scraper_runner_main c1_argv batch).fetchAttempts = 0 :=
  ⟨rfl, rfl, rfl⟩

/-- C2 counterexample: in a batch requesting exactly the id 1051 whose worker
task raised (the code's own `isinstance(item, Exception)` branch,
scraper.py lines 177-180), the output record carries `runner_id = "N/A"`, so
the multiset of output `runner_id`s differs from the multiset of requested
ids — refuting the claim's "regardless of how many individual items
succeeded or failed". -/
theorem c2_na_counterexample :
    (gather_final c2_items).length = 1 ∧
    Multiset.ofList ((gather_final c2_items).map RunnerRecord.runner_id) ≠
      Multiset.ofList (c2_items.map (fun p => RunnerId.rid p.1)) := by
  constructor
  · rfl
  · intro hEq
    have h1 : RunnerId.na ∈ Multiset.ofList ((gather_final c2_items).map RunnerRecord.runner_id) := by
      decide
    rw [hEq] at h1
    have h2 : ¬ RunnerId.na ∈ Multiset.ofList (c2_items.map (fun p => RunnerId.rid p.1)) := by
      decide
    exact h2 h1

/-- C2 amended: the Concurrency Controller's output always has the batch's
cardinality (one record per queued id, in task order), and the multiset of
output `runner_id`s equals the multiset of requested ids provided no worker
task raised past `fetch_runner`; a raised task instead contributes a
synthetic record with `runner_id = "N/A"`. -/
theorem c2_cardinality (items : List (Int × WorkerOutcome)) :
    (gather_final items).length = items.length ∧
    ((∀ p ∈ items, p.2.isRaised = false) →
      Multiset.ofList ((gather_final items).map RunnerRecord.runner_id) =
        Multiset.ofList (items.map (fun p => RunnerId.rid p.1))) := by
  constructor
  · simp [gather_final]
  · intro hnr
    exact congrArg Multiset.ofList (gather_final_map_rid items hnr)

/-- C2 witness: a concrete two-item batch with one timeout and one generic
failure and no raised worker satisfies both amended conjuncts. -/
theorem c2_cardinality_witness :
    (∀ p ∈ c2_ok_items, p.2.isRaised = false) ∧
    (gather_final c2_ok_items).length = c2_ok_items.length ∧
    Multiset.ofList ((gather_final c2_ok_items).map RunnerRecord.runner_id) =
      Multiset.ofList (c2_ok_items.map (fun p => RunnerId.rid p.1)) :=
  ⟨by decide, (c2_cardinality c2_ok_items).1, (c2_cardinality c2_ok_items).2 (by decide)⟩

/-- C3 counterexample: when the rendering wait (`wait_for_selector`,
scraper.py line 91) exceeds its timeout but navigation succeeded, the code
sleeps 0.8 s and parses whatever content is present (lines 92-98): the
result is a full parsed record with sections and no `error` key — not the
`{runner_id, error: "timeout"}` record the claim prescribes for rendering
timeouts. -/
theorem c3_selector_counterexample :
    fetch_runner 1051 (NavOutcome.ok true c3_doc) =
      { runner_id := RunnerId.rid 1051,
        parsed := some { name := "이름없음", gender := "", bib_no := "", event_name := "",
                         sections := [⟨"5K", "09:25", "00:25", "00:25"⟩] },
        error := none } ∧
    fetch_runner 1051 (NavOutcome.ok true c3_doc) ≠
      { runner_id := RunnerId.rid 1051, parsed := none, error := some "timeout" } := by
  constructor
  · rfl
  · decide

/-- C3 amended: when page *navigation* exceeds the per-item timeout (a
`PlaywrightTimeoutError` reaching scraper.py line 99) `fetch_runner` returns
exactly `{runner_id, error: "timeout"}` with no sections; a rendering-wait
timeout alone instead degrades to a normally parsed, error-free record; and
no path raises — every outcome is a record stamped with the requested
`runner_id`, and a record without parsed content always carries an error
string. -/
theorem c3_timeout_conversion (i : Int) (nav : NavOutcome) :
    (nav = NavOutcome.timeout →
      fetch_runner i nav =
        { runner_id := RunnerId.rid i, parsed := none, error := some "timeout" }) ∧
    (fetch_runner i nav).runner_id = RunnerId.rid i ∧
    (∀ b d, nav = NavOutcome.ok b d → (fetch_runner i nav).error = none) ∧
    ((fetch_runner i nav).parsed = none → ∃ m, (fetch_runner i nav).error = some m) := by
  refine ⟨?_, fetch_runner_rid i nav, ?_, ?_⟩
  · intro h; rw [h]; rfl
  · intro b d h; rw [h]; rfl
  · intro hp
    cases nav with
    | ok b d => exact absurd hp (by simp [fetch_runner])
    | timeout => exact ⟨"timeout", rfl⟩
    | targetClosed m => exact ⟨"TargetClosedError", rfl⟩
    | err m => exact ⟨m, rfl⟩

/-- C3 witness: the navigation-timeout path at id 1051 produces exactly the
timeout record. -/
theorem c3_timeout_witness :
    fetch_runner 1051 NavOutcome.timeout =
      { runner_id := RunnerId.rid 1051, parsed := none, error := some "timeout" } :=
  (c3_timeout_conversion 1051 NavOutcome.timeout).1 rfl

/-- C4 (confirmed): `parse_runner`'s `sections` has one entry per timing-row
container yielding at least one text cell, each entry's four fields are that
row's cell texts in order with missing trailing cells defaulting to `""`
(so a 2-cell row yields empty 3rd and 4th fields, via `rowToSection`), and a
page with no timing-row markup yields `sections = []`; the extractor is a
total function, so it cannot raise. -/
theorem c4_sections_faithful (d : Doc) :
    (parse_runner d).sections.length = (d.rows.filter (fun cols => !cols.isEmpty)).length ∧
    (∀ i (h1 : i < (parse_runner d).sections.length)
        (h2 : i < (d.rows.filter (fun cols => !cols.isEmpty)).length),
      (parse_runner d).sections.get ⟨i, h1⟩ =
        rowToSection ((d.rows.filter (fun cols => !cols.isEmpty)).get ⟨i, h2⟩)) ∧
    (d.rows = [] → (parse_runner d).sections = []) := by
  refine ⟨?_, ?_, ?_⟩
  · simp [parse_runner, sectionsOf]
  · intro i h1 h2
    simp [parse_runner, sectionsOf]
  · intro h
    simp [parse_runner, sectionsOf, h]

/-- C4 witness: on a page with a 2-cell row, an empty row and a 4-cell row,
two sections result and the first is `⟨"Start", "09:00", "", ""⟩`. -/
theorem c4_sections_witness :
    (parse_runner c4_doc).sections.length = 2 ∧
    (parse_runner c4_doc).sections.get ⟨0, by decide⟩ =
      { sec_label := "Start", pass_time := "09:00", split_time := "", total_time := "" } := by
  constructor
  · decide
  · rw [(c4_sections_faithful c4_doc).2.1 0 (by decide) (by decide)]
    decide

/-- C5 (confirmed): with at least three argv entries, a race identifier that
does not parse as an integer, or a participant list that filters to nothing,
makes the entry point print a single JSON error object, exit 1, and perform
zero fetch attempts. -/
theorem c5_input_validation (argv : List String) (batch : Int → List Int → List RunnerRecord)
    (h3 : 3 ≤ argv.length)
    (h : pyIntOfStr? (argv.getD 1 "").data = none ∨ parseRunnerIds (argv.getD 2 "") = []) :
    (∃ m, (scraper_runner_main argv batch).out = JsonOut.errObj m) ∧
    (scraper_runner_main argv batch).exitCode = 1 ∧
    (scraper_runner_main argv batch).fetchAttempts = 0 := by
  have hlt : ¬ argv.length < 3 := by omega
  unfold scraper_runner_main
  rw [if_neg hlt]
  cases hp : pyIntOfStr? (argv.getD 1 "").data with
  | none => exact ⟨⟨_, rfl⟩, rfl, rfl⟩
  | some r =>
    rcases h with h | h
    · rw [hp] at h
      exact absurd h (by simp)
    · simp only [h]
      exact ⟨⟨_, rfl⟩, rfl, rfl⟩

/-- C5 witness: `race_id = "abc"` with a digit-only participant list. -/
theorem c5_validation_witness :
    3 ≤ c5_argv.length ∧
    pyIntOfStr? (c5_argv.getD 1 "").data = none ∧
    (∃ m, (scraper_runner_main c5_argv c5_batch).out = JsonOut.errObj m) ∧
    (scraper_runner_main c5_argv c5_batch).exitCode = 1 ∧
    (scraper_runner_main c5_argv c5_batch).fetchAttempts = 0 :=
  ⟨by decide, by decide,
   c5_input_validation c5_argv c5_batch (by decide) (Or.inl (by decide))⟩

/-- C6 counterexample: `"99:99"` is rejected by the code's own primary
`HH:MM:SS`/`MM:SS` pattern (99 is not a valid minute or second field), i.e.
it is malformed, yet `parse_hhmmss_to_seconds` returns 6039 — not the
claimed explicit absence. -/
theorem c6_malformed_counterexample :
    regexFullmatchHMS (pyStrip ("99:99" : String).data) = none ∧
    parse_hhmmss_to_seconds "99:99" = some 6039 := by decide

/-- C6 amended: `"01:02:03" ↦ 3723`, `"02:03" ↦ 123`, `"" ↦ None`, and a
malformed input (one the primary pattern rejects) yields `None` unless its
digit runs number exactly two or three, in which case the fallback coerces
them to `m:s` / `h:m:s` seconds. -/
theorem c6_duration_values :
    parse_hhmmss_to_seconds "01:02:03" = some 3723 ∧
    parse_hhmmss_to_seconds "02:03" = some 123 ∧
    parse_hhmmss_to_seconds "" = none ∧
    (∀ s : String, regexFullmatchHMS (pyStrip s.data) = none →
      (digitRuns (pyStrip s.data)).length ≠ 2 →
      (digitRuns (pyStrip s.data)).length ≠ 3 →
      parse_hhmmss_to_seconds s = none) := by
  refine ⟨by decide, by decide, by decide, ?_⟩
  intro s h1 h2 h3
  by_cases hs : s = ""
  · simp [hs, parse_hhmmss_to_seconds]
  · simp only [parse_hhmmss_to_seconds, if_neg hs]
    rw [h1]
    cases e : (digitRuns (pyStrip s.data)).map toNatDigits with
    | nil => rfl
    | cons a tl =>
      cases tl with
      | nil => rfl
      | cons b tl2 =>
        cases tl2 with
        | nil =>
          have := congrArg List.length e
          simp [List.length_map] at this
          exact absurd this h2
        | cons c tl3 =>
          cases tl3 with
          | nil =>
            have := congrArg List.length e
            simp [List.length_map] at this
            exact absurd this h3
          | cons dd tl4 => rfl

/-- C6 witness: `"abc"` has no digit runs and no primary match, hence `None`. -/
theorem c6_duration_witness :
    regexFullmatchHMS (pyStrip ("abc" : String).data) = none ∧
    (digitRuns (pyStrip ("abc" : String).data)).length = 0 ∧
    parse_hhmmss_to_seconds "abc" = none :=
  ⟨by decide, by decide,
   c6_duration_values.2.2.2 "abc" (by decide) (by decide) (by decide)⟩

/-- C7 counterexample: on a page whose event card was read before the
exception (metadata step 2 raises), `event_name` is already assigned and is
returned non-empty — refuting the claim that any metadata exception leaves
`gender`, `bib_no` AND `event_name` as empty strings. -/
theorem c7_partial_counterexample :
    c7_doc.raiseAt = some 2 ∧
    (parse_runner c7_doc).event_name = "2025 춘천마라톤" ∧
    ¬ ((parse_runner c7_doc).event_name = "") := by decide

/-- C7 amended: `parse_runner` never returns an empty `name`; a metadata
exception at step `k` leaves the already-extracted `sections` intact and
never propagates (the function is total), and every field whose assignment
step had not yet run remains at its default — `event_name` empty for `k ≤ 1`,
`name` at the sentinel `"이름없음"` for `k ≤ 2`, `gender` empty for `k ≤ 3`,
`bib_no` empty for `k ≤ 4` — but fields assigned before the exception (such
as `event_name` when `k ≥ 2`) keep their extracted values. -/
theorem c7_metadata_resilience (d : Doc) :
    (parse_runner d).name ≠ "" ∧
    (parse_runner d).sections = sectionsOf d.rows ∧
    (∀ k, d.raiseAt = some k →
      ((parse_runner d).sections = (parse_runner { d with raiseAt := none }).sections ∧
       (k ≤ 1 → (parse_runner d).event_name = "") ∧
       (k ≤ 2 → (parse_runner d).name = "이름없음") ∧
       (k ≤ 3 → (parse_runner d).gender = "") ∧
       (k ≤ 4 → (parse_runner d).bib_no = ""))) := by
  refine ⟨?_, rfl, ?_⟩
  · by_cases h : metaName d = ""
    · have hn : (parse_runner d).name = "이름없음" := by simp [parse_runner, h]
      rw [hn]; decide
    · have hn : (parse_runner d).name = metaName d := by simp [parse_runner, h]
      rw [hn]; exact h
  · intro k hk
    have hs : stopOf d = k := by rw [stopOf, hk]; rfl
    refine ⟨rfl, ?_, ?_, ?_, ?_⟩
    · intro h1
      show metaEventName d = ""
      rw [metaEventName, hs, if_neg (by omega)]
    · intro h2
      have h0 : scopeTags d = (none, none) := by
        rw [scopeTags, hs, if_neg (by omega)]
      have hm0 : metaName0 d = "" := by rw [metaName0, h0]; rfl
      have hm : metaName d = "" := by
        rw [metaName, hs, if_neg (by omega)]
        exact hm0
      simp [parse_runner, hm]
    · intro h3
      show metaGender d = ""
      rw [metaGender, hs, if_neg (by omega)]
    · intro h4
      show metaBib d = ""
      rw [metaBib, hs, if_neg (by omega)]

/-- C7 witness: the step-2 exception on `c7_doc` keeps the sections, and the
unassigned fields take their defaults, with the sentinel name. -/
theorem c7_resilience_witness :
    c7_doc.raiseAt = some 2 ∧
    (parse_runner c7_doc).sections = (parse_runner { c7_doc with raiseAt := none }).sections ∧
    (parse_runner c7_doc).name = "이름없음" ∧
    (parse_runner c7_doc).gender = "" ∧
    (parse_runner c7_doc).bib_no = "" := by
  have h := (c7_metadata_resilience c7_doc).2.2 2 rfl
  exact ⟨rfl, h.1, h.2.2.1 (by omega), h.2.2.2.1 (by omega), h.2.2.2.2 (by omega)⟩

/-- C8 counterexample: for the player-card description `"남자 | #10#51"`, the
second stripped segment is `"#10#51"`; the claim (leading `#` stripped)
prescribes `bib_no = "10#51"`, but the code's `replace("#", "")` removes
every `#`, producing `"1051"`. -/
theorem c8_hash_counterexample :
    (descParts "남자 | #10#51").getD 1 "" = "#10#51" ∧
    specLeadingHashStrip "#10#51" = "10#51" ∧
    (parse_runner c8_doc).bib_no = "1051" ∧
    (parse_runner c8_doc).bib_no ≠
      specLeadingHashStrip ((descParts "남자 | #10#51").getD 1 "") := by decide

/-- C8 amended: for a page whose player card has a description, `gender` is
the first pipe-delimited stripped segment exactly when it contains a
recognized gender token (else empty), and with at least two segments
`bib_no` is the second segment with EVERY `"#"` removed and whitespace
stripped (with fewer, it stays empty); the scenario-A values are the
witness. -/
theorem c8_desc_extraction (d : Doc) (t : Option String) (dtext : String)
    (hp : d.player = some ⟨t, some dtext⟩) (hr : d.raiseAt = none) :
    (hasGenderTok ((descParts dtext).headD "") = true →
      (parse_runner d).gender = (descParts dtext).headD "") ∧
    (hasGenderTok ((descParts dtext).headD "") = false → (parse_runner d).gender = "") ∧
    (2 ≤ (descParts dtext).length →
      (parse_runner d).bib_no =
        String.mk (pyStrip (removeAllChar '#' ((descParts dtext).getD 1 "").data))) ∧
    ((descParts dtext).length < 2 → (parse_runner d).bib_no = "") := by
  have hs : stopOf d = 6 := by rw [stopOf, hr]; rfl
  have htg : scopeTags d = (t, some dtext) := by
    rw [scopeTags, hs, if_pos (by omega), hp]
  have hparts : (descParts dtext).isEmpty = false := descParts_not_empty dtext
  refine ⟨?_, ?_, ?_, ?_⟩
  · intro ht
    show metaGender d = _
    rw [metaGender, hs, if_pos (by omega), htg]
    simp only
    rw [if_neg (by simp [hparts]), if_pos ht]
  · intro ht
    show metaGender d = ""
    rw [metaGender, hs, if_pos (by omega), htg]
    simp only
    rw [if_neg (by simp [hparts]), if_neg (by rw [ht]; decide)]
  · intro hlen
    show metaBib d = _
    rw [metaBib, hs, if_pos (by omega), htg]
    simp only
    rw [if_neg (by simp [hparts]), if_pos hlen]
  · intro hlen
    show metaBib d = ""
    rw [metaBib, hs, if_pos (by omega), htg]
    simp only
    rw [if_neg (by simp [hparts]), if_neg (by omega)]

/-- C8 witness: scenario A — player card `홍길동` / `남자 | #1051` with three
timing rows yields name `홍길동`, gender `남자`, bib_no `1051`, 3 sections. -/
theorem c8_scenario_witness :
    c8_docA.player = some ⟨some "홍길동", some "남자 | #1051"⟩ ∧
    (parse_runner c8_docA).name = "홍길동" ∧
    (parse_runner c8_docA).gender = "남자" ∧
    (parse_runner c8_docA).bib_no = "1051" ∧
    (parse_runner c8_docA).sections.length = 3 := by
  have h := c8_desc_extraction c8_docA (some "홍길동") "남자 | #1051" rfl rfl
  refine ⟨rfl, by decide, ?_, ?_, by decide⟩
  · rw [h.1 (by decide)]; decide
  · rw [h.2.2.1 (by decide)]; decide

/-- C9 (confirmed): whenever the browser launch succeeds, the browser is
closed by the time `get_many_async` finishes, on the success path
(`browser.close()` on scraper.py line 172, reached because the gather uses
`return_exceptions=True`, for any mix of per-item successes and failures)
and on every failure path (the `async with async_playwright()` teardown);
on the success path the returned list is exactly the aggregated records. -/
theorem c9_browser_cleanup (env : AsyncEnv) (h : env.launchOk = true) :
    (get_many_async_run env).browserLaunched = true ∧
    (get_many_async_run env).browserClosed = true ∧
    (∀ l, (get_many_async_run env).result = Except.ok l → l = gather_final env.items) := by
  rcases env with ⟨lo, lm, nc, its, cb⟩
  cases lo with
  | false => exact nomatch h
  | true =>
    cases nc with
    | raise m => exact ⟨rfl, rfl, fun l hl => nomatch hl⟩
    | ok =>
      cases cb with
      | raise m => exact ⟨rfl, rfl, fun l hl => nomatch hl⟩
      | ok =>
        refine ⟨rfl, rfl, fun l hl => ?_⟩
        injection hl with h2
        exact h2.symm

/-- C9 witness: a launched one-item run (the item timed out) ends with the
browser closed. -/
theorem c9_cleanup_witness :
    c9_env.launchOk = true ∧ (get_many_async_run c9_env).browserClosed = true :=
  ⟨rfl, (c9_browser_cleanup c9_env rfl).2.1⟩

/-- C10 (confirmed): whenever the async batch run resolves to an exception,
`get_many` catches it (scraper.py lines 196-198) and returns the empty
list — a bare list with no error indication — even though runner ids were
requested. -/
theorem c10_swallowed_failure (env : AsyncEnv) (m : String)
    (h : (get_many_async_run env).result = Except.error m) :
    get_many env = [] := by
  unfold get_many
  rw [h]

/-- C10 witness: a failed browser launch with one requested id yields the
empty list. -/
theorem c10_swallow_witness :
    (get_many_async_run c10_env).result = Except.error "browser launch failed" ∧
    c10_env.items.length = 1 ∧
    get_many c10_env = [] :=
  ⟨rfl, rfl, c10_swallowed_failure c10_env "browser launch failed" rfl⟩
